import Mathlib

/-!
Verification of the campaign persistence layer of `vbam-cma`.

The Rust sources (`src/campaign.rs`, `src/campaign/data.rs`,
`src/campaign/system.rs`, `src/campaign/empire.rs`, `src/campaign/unit.rs`)
are shallowly embedded below.  Pure string/number manipulation becomes Lean
functions; the SQLite database is modelled as explicit in-memory state
(lists of rows), with each SQL statement translated into the corresponding
pure state transformation; fallible operations return `Except`; the one
place the Rust code can panic (`val.parse().unwrap()` in `Campaign::open`)
is modelled by a dedicated outcome constructor.
-/

namespace VbamCma

/-! ### Integer parsing (Rust `i32::from_str`)

`str::parse::<i32>` accepts an optional leading `+` or `-` sign followed by
one or more ASCII digits, and fails on anything else or on overflow of the
32-bit signed range. -/

/-- Numeric value of an ASCII digit character. -/
def digitVal (c : Char) : Nat := c.toNat - 48

/-- True when every character of the list is an ASCII digit. -/
def allDigits (cs : List Char) : Bool := cs.all (fun c => c.isDigit)

/-- Value of a digit string in base 10. -/
def digitsToNat (cs : List Char) : Nat := cs.foldl (fun a c => a * 10 + digitVal c) 0

/-- Embedding of Rust `i32::from_str`: optional sign, one or more digits,
32-bit signed range check; `none` models `Err(ParseIntError)`. -/
def parseI32 (cs : List Char) : Option Int :=
  let sd : Int × List Char :=
    match cs with
    | '+' :: rest => (1, rest)
    | '-' :: rest => (-1, rest)
    | _ => (1, cs)
  if sd.2.isEmpty then none
  else if allDigits sd.2 then
    let v : Int := sd.1 * (digitsToNat sd.2 : Int)
    if -2147483648 ≤ v ∧ v ≤ 2147483647 then some v else none
  else none

/-! ### Entities and persisted rows -/

/-- The `System` struct of `src/campaign/system.rs` (fields in source order). -/
structure System where
  id : Int
  name : String
  ptype : String
  raw : Int
  cap : Int
  pop : Int
  mor : Int
  ind : Int
  dev : Int
  fails : Int
  owner : Int
deriving DecidableEq, Repr

/-- `System::new` (`system.rs` lines 158-162): id 0, the seven given fields,
dev 0, fails 0, owner 0. -/
def System.new (name ptype : String) (raw cap pop mor ind : Int) : System :=
  { id := 0, name := name, ptype := ptype, raw := raw, cap := cap,
    pop := pop, mor := mor, ind := ind, dev := 0, fails := 0, owner := 0 }

/-- A persisted row of the `systems` table.  The schema
(`CREATE TABLE systems`, `data.rs` lines 320-339 and `system.rs` lines 50-64)
gives `dev` and `fails` a `DEFAULT 0`; `owner` is a nullable integer column
with no default, so it is `Option Int` with `none` standing for SQL NULL. -/
structure SystemRow where
  id : Int
  name : String
  ptype : String
  raw : Int
  cap : Int
  pop : Int
  mor : Int
  ind : Int
  dev : Int
  fails : Int
  owner : Option Int
deriving DecidableEq, Repr

/-- A persisted row of the `empires` table (`data.rs` lines 215-227). -/
structure EmpireRow where
  id : Int
  name : String
  treasury : Int
  tech : Int
deriving DecidableEq, Repr

/-- The error enum of `data.rs` (`DataError`), payloads elided except for
the sqlx error kind that matters here. -/
inductive SqlxError where
  | rowNotFound
deriving DecidableEq, Repr

/-- Embedding of `DataError` (`data.rs` lines 27-31). -/
inductive DataError where
  | io
  | parse
  | sqlx (e : SqlxError)
deriving DecidableEq, Repr

/-- The statement `INSERT INTO systems (name, ptype, raw, cap, pop, mor, ind)
VALUES(?,?,?,?,?,?,?)` (`system.rs` lines 143-155, identical in
`data.rs` lines 370-385): only the seven listed columns are bound, the
autoincrement id is assigned by storage, `dev` and `fails` take their schema
default 0, and `owner`, having no default, becomes SQL NULL. -/
def insert_system (sys : System) (t : List SystemRow) : List SystemRow :=
  t ++ [{ id := (t.length : Int) + 1, name := sys.name, ptype := sys.ptype,
          raw := sys.raw, cap := sys.cap, pop := sys.pop, mor := sys.mor,
          ind := sys.ind, dev := 0, fails := 0, owner := none }]

/-- Typed decode of a `systems` row into the `System` struct, as performed by
`sqlx::query_as` (`system.rs` `select_all`/`select_by_name`, `data.rs`
`get_systems`/`get_system_by_name`).  The sqlite driver decodes a NULL
integer column read into a plain `i64` as 0 — the behaviour the repository
own tests exercise, since every imported row has a NULL `owner` and the
tests successfully read such rows back. -/
def rowToSystem (r : SystemRow) : System :=
  { id := r.id, name := r.name, ptype := r.ptype, raw := r.raw, cap := r.cap,
    pop := r.pop, mor := r.mor, ind := r.ind, dev := r.dev, fails := r.fails,
    owner := r.owner.getD 0 }

/-- `System::select_all` (`system.rs` lines 165-168): `SELECT * FROM systems`
decoded row by row.  Connection failures are environmental and outside the
in-memory model, so the embedded query is total. -/
def select_all (t : List SystemRow) : List System := t.map rowToSystem

/-! ### CSV import pipeline (`system.rs`) -/

/-- Error kinds of the import path: `from_csv` manufactures a
`csv::Error` from `io::ErrorKind::InvalidInput` (`system.rs` line 68); the
csv reader itself reports records whose field count differs from the
header (its default non-flexible mode) as an unequal-lengths error. -/
inductive CsvError where
  | invalidInput
  | unequalLengths
deriving DecidableEq, Repr

/-- Field access `rcd.get(i)` on a CSV record: `None` is `InvalidInput`. -/
def getField (rcd : List String) (i : Nat) : Except CsvError String :=
  match rcd.get? i with
  | some s => Except.ok s
  | none => Except.error CsvError.invalidInput

/-- Field access plus `parse::<i32>()`, failing with `InvalidInput` on a
missing field or unparsable integer (`system.rs` lines 77-111). -/
def getIntField (rcd : List String) (i : Nat) : Except CsvError Int :=
  match getField rcd i with
  | Except.error e => Except.error e
  | Except.ok s =>
    match parseI32 s.toList with
    | some v => Except.ok v
    | none => Except.error CsvError.invalidInput

/-- `System::from_csv` (`system.rs` lines 67-114): fields in order
name, ptype, raw, cap, pop, mor, ind; any missing field or failed integer
parse yields the `InvalidInput` error; otherwise `System::new`. -/
def System.from_csv (rcd : List String) : Except CsvError System := do
  let name ← getField rcd 0
  let ptype ← getField rcd 1
  let raw ← getIntField rcd 2
  let cap ← getIntField rcd 3
  let pop ← getIntField rcd 4
  let mor ← getIntField rcd 5
  let ind ← getIntField rcd 6
  pure (System.new name ptype raw cap pop mor ind)

/-- `System::import` (`system.rs` lines 125-140) over already-tokenised
records.  The csv reader (default, non-flexible) yields an error for a
record whose field count differs from the field count `expected` of the header;
`import` returns that error immediately (`Err(e) => return Err(...)`),
leaving previously inserted rows in place.  A record that tokenises but
fails `from_csv` is silently skipped (`if let Ok(sys) = ...`).  A
successfully parsed record is inserted at once; in the in-memory model the
insert itself cannot fail. -/
def System.importRecords (expected : Nat) (rows : List (List String))
    (t : List SystemRow) : Except String Unit × List SystemRow :=
  match rows with
  | [] => (Except.ok (), t)
  | r :: rest =>
    if r.length = expected then
      match System.from_csv r with
      | Except.ok sys => System.importRecords expected rest (insert_system sys t)
      | Except.error _ => System.importRecords expected rest t
    else (Except.error "UnequalLengths", t)

/-- Split a character list at every occurrence of `sep`. -/
def splitOnChar (sep : Char) : List Char → List (List Char)
  | [] => [[]]
  | c :: cs =>
    let r := splitOnChar sep cs
    if c = sep then [] :: r
    else
      match r with
      | [] => [[c]]
      | g :: gs => (c :: g) :: gs

/-- Tokenisation performed by `csv::Reader` on input without quoting:
non-empty lines, each split at commas into string fields. -/
def csvRecords (text : List Char) : List (List String) :=
  ((splitOnChar '\n' text).filter (fun l => ¬ l.isEmpty)).map
    (fun line => (splitOnChar ',' line).map (fun cs => String.mk cs))

/-- The whole text-level import: the reader consumes the first record as the
header (`has_headers` default) and streams the remaining records through
`System::importRecords` with the field count of the header as the expected
record length. -/
def System.import_csv (text : List Char) (t : List SystemRow) :
    Except String Unit × List SystemRow :=
  match csvRecords text with
  | [] => (Except.ok (), t)
  | header :: rows => System.importRecords header.length rows t

/-! ### DataStore reads (`data.rs`) -/

/-- In-memory image of an open campaign database: the `systems` and
`empires` tables (the tables the embedded operations touch). -/
structure Db where
  systems : List SystemRow
  empires : List EmpireRow
deriving DecidableEq, Repr

/-- `DataStore::get_empire_name` (`data.rs` lines 130-136):
`SELECT name FROM empires WHERE id=?` via `fetch_one`, which yields
`sqlx::Error::RowNotFound` when no row matches; the `?` operator wraps it
into `DataError::Sqlx`. -/
def DataStore.get_empire_name (db : Db) (id : Int) : Except DataError String :=
  match db.empires.find? (fun e => e.id == id) with
  | some e => Except.ok e.name
  | none => Except.error (DataError.sqlx SqlxError.rowNotFound)

/-- The owner-name resolution match of `data.rs` (lines 145-148 and
159-162): owner 0 resolves to the literal "None", any other owner id is
looked up through `get_empire_name` (and so fails with `RowNotFound` when
the empire is absent). -/
def DataStore.owner_name (db : Db) (owner : Int) : Except DataError String :=
  if owner = 0 then Except.ok "None"
  else DataStore.get_empire_name db owner

/-- Resolution loop of `DataStore::get_systems` (`data.rs` lines 157-164):
hydrate each decoded system with its owner name in order, stopping at the
first resolution error. -/
def DataStore.resolveAll (db : Db) : List System → Except DataError (List (System × String))
  | [] => Except.ok []
  | s :: rest => do
    let n ← DataStore.owner_name db s.owner
    let r ← DataStore.resolveAll db rest
    pure ((s, n) :: r)

/-- `DataStore::get_systems` (`data.rs` lines 153-166): `SELECT * FROM
systems` decoded via `query_as`, then the `owner_name` of each row resolved.
The hydrated record is modelled as the pair of the decoded `System` and its
resolved owner name (the struct variant carrying the `owner_name` field is
not part of the source snapshot). -/
def DataStore.get_systems (db : Db) : Except DataError (List (System × String)) :=
  DataStore.resolveAll db (db.systems.map rowToSystem)

/-- `DataStore::get_system_by_name` (`data.rs` lines 140-150):
`fetch_one` of the first row whose NAME matches (RowNotFound when none),
then the same owner-name resolution. -/
def DataStore.get_system_by_name (db : Db) (name : String) :
    Except DataError (System × String) :=
  match db.systems.find? (fun r => r.name == name) with
  | none => Except.error (DataError.sqlx SqlxError.rowNotFound)
  | some r => do
    let n ← DataStore.owner_name db (rowToSystem r).owner
    pure (rowToSystem r, n)

/-- `DataStore::current_turn` (`data.rs` lines 113-120): fetch the control
row for key `turn` (`fetch_one`, RowNotFound when absent), then
`val.parse::<i32>()?` — a parse failure becomes `DataError::Parse`. -/
def DataStore.current_turn (control : List (String × String)) : Except DataError Int :=
  match control.find? (fun kv => kv.1 == "turn") with
  | none => Except.error (DataError.sqlx SqlxError.rowNotFound)
  | some kv =>
    match parseI32 kv.2.toList with
    | some t => Except.ok t
    | none => Except.error DataError.parse

/-! ### Campaign lifecycle (`campaign.rs`) -/

/-- The in-memory `Campaign` value (connection pool elided): name and the
current turn number. -/
structure CampaignState where
  name : List Char
  turn : Int
deriving DecidableEq, Repr

/-- Outcome of `Campaign::open`, which can return `Ok`, return `Err(msg)`,
or panic: `let turn: i32 = val.parse().unwrap();` aborts the process when
the stored value is not a valid integer. -/
inductive OpenOutcome where
  | ok (c : CampaignState)
  | err (e : SqlxError)
  | panicked
deriving DecidableEq, Repr

/-- `Campaign::open` (`campaign.rs` lines 108-129) given the contents of
the `control` table of the campaign: fetch the row for key `turn` (an absent
row is a returned sqlx error), then `val.parse().unwrap()` — a valid
integer yields the store with that turn, an invalid one panics. -/
def Campaign.open (name : List Char) (control : List (String × String)) : OpenOutcome :=
  match control.find? (fun kv => kv.1 == "turn") with
  | none => OpenOutcome.err SqlxError.rowNotFound
  | some kv =>
    match parseI32 kv.2.toList with
    | some t => OpenOutcome.ok { name := name, turn := t }
    | none => OpenOutcome.panicked

/-- `database_path` (`campaign.rs` lines 171-180): replace every space of
the campaign name with an underscore and append the `.db` extension.  The
platform data-folder prefix is common to every campaign and elided. -/
def database_path (name : List Char) : List Char :=
  (name.map (fun c => if c = ' ' then '_' else c)) ++ ['.', 'd', 'b']

/-- The campaign storage directory: the set of database file names present. -/
structure Fs where
  files : List (List Char)
deriving DecidableEq, Repr

/-- `Campaign::new` (`campaign.rs` lines 81-105): derive the database path;
if it already exists fail with "Campaign already exists"; otherwise create
the database file, provision the tables, and return the store with turn 0. -/
def Campaign.new (name : List Char) (fs : Fs) :
    Except String (CampaignState × Fs) :=
  let p := database_path name
  if p ∈ fs.files then Except.error "Campaign already exists"
  else Except.ok ({ name := name, turn := 0 }, { files := p :: fs.files })

/-- Break a character list at its first `'.'`: the part before and the part
after, or `none` when there is no dot. -/
def breakAtDot : List Char → Option (List Char × List Char)
  | [] => none
  | c :: cs =>
    if c = '.' then some ([], cs)
    else (breakAtDot cs).map (fun p => (c :: p.1, p.2))

/-- Rust `Path::extension`: the segment after the last dot, `none` when
there is no dot or the whole name is a lone leading-dot file. -/
def fileExt (f : List Char) : Option (List Char) :=
  match breakAtDot f.reverse with
  | some (e, st) => if st.isEmpty then none else some e.reverse
  | none => none

/-- Rust `Path::file_stem`: the portion before the last dot (the whole name
when there is no dot or only a leading dot). -/
def fileStem (f : List Char) : Option (List Char) :=
  match breakAtDot f.reverse with
  | some (_, st) => if st.isEmpty then some f else some st.reverse
  | none => if f.isEmpty then none else some f

/-- One directory entry as yielded by `fs::read_dir`: either a per-entry
IO error or a file name. -/
def DirEntry : Type := Except Unit (List Char)

/-- Result of asking for the entries of the storage directory: the directory
read itself may fail (`fs::read_dir(folder)?`), or yield a list of entry
results. -/
inductive ReadDir where
  | err
  | ok (entries : List (Except Unit (List Char)))

/-- The filter of `list` (`campaign.rs` lines 189-196): keep entries that
resolved and whose path extension is `db`. -/
def entryHasDbExt (e : Except Unit (List Char)) : Bool :=
  match e with
  | Except.ok f => fileExt f == some ['d', 'b']
  | Except.error _ => false

/-- The map of `list` (`campaign.rs` lines 197-207): the file stem of an entry
with underscores turned back into spaces; any failure collapses to the
empty string. -/
def entryToName (e : Except Unit (List Char)) : List Char :=
  match e with
  | Except.error _ => []
  | Except.ok f =>
    match fileStem f with
    | some st => st.map (fun c => if c = '_' then ' ' else c)
    | none => []

/-- `list` (`campaign.rs` lines 183-210): a failure to resolve or read the
storage directory is propagated as an `io::Result` error (`?` on
`fs::read_dir`); otherwise the entries are filtered by the `.db` extension
and mapped to display names. -/
def Campaign.list (d : ReadDir) : Except Unit (List (List Char)) :=
  match d with
  | ReadDir.err => Except.error ()
  | ReadDir.ok entries =>
    Except.ok ((entries.filter entryHasDbExt).map entryToName)

/-! ### Schema provisioning order -/

/-- The tables of the campaign schema. -/
inductive TableName where
  | control
  | empires
  | systems
  | fleets
  | ground_types
  | ground_units
  | ship_types
  | ships
deriving DecidableEq, Repr

/-- A row of the seeded `ground_types` catalog; `df` is the `def` column. -/
structure GroundTypeRow where
  name : String
  abbr : String
  cost : Int
  atk : Int
  df : Int
deriving DecidableEq, Repr

/-- The `INSERT INTO ground_types` seed (`unit.rs` lines 42-48, identical
in `data.rs` lines 256-268). -/
def ground_types_seed : List GroundTypeRow :=
  [{ name := "Militia", abbr := "MIL", cost := 2, atk := 4, df := 4 },
   { name := "Light Infantry", abbr := "LI", cost := 3, atk := 4, df := 4 },
   { name := "Mobile Infantry", abbr := "MI", cost := 4, atk := 4, df := 8 },
   { name := "Light Armor", abbr := "LA", cost := 4, atk := 8, df := 4 },
   { name := "Mech Infantry", abbr := "MECH", cost := 8, atk := 8, df := 8 },
   { name := "Marines", abbr := "MAR", cost := 6, atk := 4, df := 8 }]

/-- One provisioning action: a `CREATE TABLE` or a seed `INSERT`. -/
inductive Step where
  | create (t : TableName)
  | seedControl (key value : String)
  | seedGroundTypes (rows : List GroundTypeRow)
deriving DecidableEq, Repr

/-- `Campaign::create_table` (`campaign.rs` lines 44-51): control table
plus its `('turn','0')` seed row. -/
def Campaign.create_table : List Step :=
  [Step.create TableName.control, Step.seedControl "turn" "0"]

/-- `empire::create_table` (`empire.rs` lines 62-65): empires then fleets. -/
def empire.create_table : List Step :=
  [Step.create TableName.empires, Step.create TableName.fleets]

/-- `system::create_table` (`system.rs` lines 179-182). -/
def system.create_table : List Step :=
  [Step.create TableName.systems]

/-- `unit::create_tables` (`unit.rs` lines 109-116): ground types (with the
seed insert), ship types, ships.  No ground-units table is created on this
path. -/
def unit.create_tables : List Step :=
  [Step.create TableName.ground_types, Step.seedGroundTypes ground_types_seed,
   Step.create TableName.ship_types, Step.create TableName.ships]

/-- `Campaign::create_tables` (`campaign.rs` lines 54-59): control, the
empire module tables, the system table, the unit module tables, in that
call order. -/
def Campaign.create_tables : List Step :=
  Campaign.create_table ++ empire.create_table ++ system.create_table ++
    unit.create_tables

/-- `DataStore::create_tables` (`data.rs` lines 341-350): controls,
empires, fleets, ground types (seeded), ground units, ship types, ships,
systems, in that call order. -/
def DataStore.create_tables : List Step :=
  [Step.create TableName.control, Step.seedControl "turn" "0"] ++
  [Step.create TableName.empires] ++
  [Step.create TableName.fleets] ++
  [Step.create TableName.ground_types, Step.seedGroundTypes ground_types_seed] ++
  [Step.create TableName.ground_units] ++
  [Step.create TableName.ship_types] ++
  [Step.create TableName.ships] ++
  [Step.create TableName.systems]

/-- The sequence of tables a provisioning script creates. -/
def tablesCreated (s : List Step) : List TableName :=
  s.filterMap (fun st =>
    match st with
    | Step.create t => some t
    | _ => none)

/-- Foreign references declared by the `CREATE TABLE` statements of
`data.rs` (lines 196-339): fleets references empires and systems,
ground units references ground types and systems, ship types references
empires, ships references ship types and fleets, systems references
empires. -/
def dataTableRefs : TableName → List TableName
  | TableName.control => []
  | TableName.empires => []
  | TableName.systems => [TableName.empires]
  | TableName.fleets => [TableName.empires, TableName.systems]
  | TableName.ground_types => []
  | TableName.ground_units => [TableName.ground_types, TableName.systems]
  | TableName.ship_types => [TableName.empires]
  | TableName.ships => [TableName.ship_types, TableName.fleets]

/-- Foreign references declared by the `CREATE TABLE` statements on the
`Campaign::create_tables` path (`campaign.rs`/`empire.rs`/`system.rs`/
`unit.rs`); this variant of `ship_types` has no empire column. -/
def campaignTableRefs : TableName → List TableName
  | TableName.control => []
  | TableName.empires => []
  | TableName.systems => [TableName.empires]
  | TableName.fleets => [TableName.empires, TableName.systems]
  | TableName.ground_types => []
  | TableName.ground_units => [TableName.ground_types, TableName.systems]
  | TableName.ship_types => []
  | TableName.ships => [TableName.ship_types, TableName.fleets]

/-- Boolean check that every foreign reference other than a reference to
`systems` points at a table created earlier in the given order. -/
def depOrderedExceptSystems (order : List TableName)
    (refs : TableName → List TableName) : Bool :=
  order.all (fun t => (refs t).all (fun r =>
    r == TableName.systems || decide (order.indexOf r < order.indexOf t)))

/-! ### Concrete instances used by the theorems -/

/-- The two-line CSV of the import-correctness property of the spec. -/
def senorCsv : List Char :=
  ("NAME,TYPE,RAW,CAP,POP,MOR,IND\nSenor Prime,HW,5,12,10,8,10\n").toList

/-- A well-formed seven-field CSV record. -/
def goodRow : List String := ["Senor Prime", "HW", "5", "12", "10", "8", "10"]

/-- A CSV record missing the IND field (six fields). -/
def rowMissingInd : List String := ["Outpost", "Barren", "2", "6", "3", "2"]

/-- A seven-field CSV record whose IND field is not an integer. -/
def rowBadInd : List String := ["Outpost", "Barren", "2", "6", "3", "2", "x"]

/-- A seven-field CSV record with a negative RAW field. -/
def negRow : List String := ["Neg", "T", "-5", "1", "2", "3", "4"]

/-- The `systems` row produced by importing the Senor Prime record into an
empty store. -/
def senorRow : SystemRow :=
  { id := 1, name := "Senor Prime", ptype := "HW", raw := 5, cap := 12,
    pop := 10, mor := 8, ind := 10, dev := 0, fails := 0, owner := none }

/-- A `systems` row whose owner references the absent empire id 5. -/
def danglingRow : SystemRow :=
  { id := 1, name := "A", ptype := "T", raw := 1, cap := 1, pop := 1,
    mor := 1, ind := 1, dev := 0, fails := 0, owner := some 5 }

/-- A store holding one system with a dangling nonzero owner and no empires. -/
def danglingDb : Db := { systems := [danglingRow], empires := [] }

/-- A seeded empire row. -/
def terran : EmpireRow := { id := 1, name := "Terran", treasury := 0, tech := 0 }

/-- An unowned `systems` row (owner NULL, as inserts leave it). -/
def unownedRow : SystemRow :=
  { id := 1, name := "A", ptype := "T", raw := 1, cap := 1, pop := 1,
    mor := 1, ind := 1, dev := 0, fails := 0, owner := none }

/-- A `systems` row owned by empire 1. -/
def ownedRow : SystemRow :=
  { id := 2, name := "B", ptype := "T", raw := 1, cap := 1, pop := 1,
    mor := 1, ind := 1, dev := 0, fails := 0, owner := some 1 }

/-- A store where every nonzero owner reference resolves. -/
def resolvedDb : Db := { systems := [unownedRow, ownedRow], empires := [terran] }

/-- The campaign name "Al pha". -/
def alSpace : List Char := "Al pha".toList

/-- The campaign name "Al_pha". -/
def alUnderscore : List Char := "Al_pha".toList

/-! ### Helper lemmas -/

theorem breakAtDot_no_dot_append (l r : List Char) (h : '.' ∉ l) :
    breakAtDot (l ++ '.' :: r) = some (l, r) := by
  induction l with
  | nil => simp [breakAtDot]
  | cons c cs ih =>
    have hc : c ≠ '.' := fun hc => h (hc ▸ List.mem_cons_self c cs)
    have hcs : '.' ∉ cs := fun hm => h (List.mem_cons_of_mem c hm)
    simp [breakAtDot, hc, ih hcs]

theorem breakAtDot_db_rev (t : List Char) :
    breakAtDot ('b' :: 'd' :: '.' :: t) = some (['b', 'd'], t) := by
  simp [breakAtDot]

theorem database_path_rev (name : List Char) :
    (database_path name).reverse =
      'b' :: 'd' :: '.' :: (name.map (fun c => if c = ' ' then '_' else c)).reverse := by
  simp [database_path]

theorem fileExt_database_path (name : List Char) (h : name ≠ []) :
    fileExt (database_path name) = some ['d', 'b'] := by
  have hne : ((name.map (fun c => if c = ' ' then '_' else c)).reverse).isEmpty = false := by
    cases name with
    | nil => exact absurd rfl h
    | cons c cs => simp [List.isEmpty_iff]
  simp [fileExt, database_path_rev, breakAtDot_db_rev, hne]

theorem fileStem_database_path (name : List Char) (h : name ≠ []) :
    fileStem (database_path name) =
      some (name.map (fun c => if c = ' ' then '_' else c)) := by
  have hne : ((name.map (fun c => if c = ' ' then '_' else c)).reverse).isEmpty = false := by
    cases name with
    | nil => exact absurd rfl h
    | cons c cs => simp [List.isEmpty_iff]
  simp [fileStem, database_path_rev, breakAtDot_db_rev, hne]

theorem space_underscore_roundtrip (name : List Char) (h : '_' ∉ name) :
    (name.map (fun c => if c = ' ' then '_' else c)).map
      (fun c => if c = '_' then ' ' else c) = name := by
  induction name with
  | nil => rfl
  | cons c cs ih =>
    have hc : c ≠ '_' := fun hc => h (hc ▸ List.mem_cons_self c cs)
    have hcs : '_' ∉ cs := fun hm => h (List.mem_cons_of_mem c hm)
    by_cases hsp : c = ' '
    · simp [hsp, ih hcs]
    · simp [hsp, hc, ih hcs]

theorem campaign_new_ok (name : List Char) (fs : Fs) (c : CampaignState) (fs2 : Fs)
    (h : Campaign.new name fs = Except.ok (c, fs2)) :
    c = { name := name, turn := 0 } ∧ fs2 = { files := database_path name :: fs.files } := by
  by_cases hp : database_path name ∈ fs.files
  · simp [Campaign.new, hp] at h
  · simp [Campaign.new, hp] at h
    exact ⟨h.1.symm, h.2.symm⟩

/-! ### Claim theorems -/

/-- C1: the spec says `open` fails with a returned Parse error when the
stored control value for key `turn` is not a valid integer.  The code
(`campaign.rs` line 126) instead panics on `val.parse().unwrap()`; a valid
integer does yield a store with that turn, and the newer
`DataStore::current_turn` is the code path that returns the Parse error. -/
theorem c1_open_turn_parse :
    Campaign.open ['X'] [("turn", "abc")] = OpenOutcome.panicked ∧
    Campaign.open ['X'] [("turn", "7")] =
      OpenOutcome.ok { name := ['X'], turn := 7 } ∧
    DataStore.current_turn [("turn", "abc")] = Except.error DataError.parse :=
  ⟨rfl, rfl, rfl⟩

/-- C2 counterexample: a store holding one System whose owner references
the absent empire id 5 makes `get_systems` fail with a RowNotFound storage
error instead of resolving the owner name to "None" as the claim states. -/
theorem c2_counterexample :
    DataStore.get_systems danglingDb =
      Except.error (DataError.sqlx SqlxError.rowNotFound) := rfl

/-- C2 amended: owner-name resolution returns "None" for owner 0 and the
referenced Empire name when it exists, but a nonzero owner whose Empire
is absent makes the resolution — and hence `get_systems` and
`get_system_by_name` — fail with a RowNotFound error rather than resolve
to "None". -/
theorem c2_owner_resolution (db : Db) (n : Int) (e : EmpireRow) :
    DataStore.owner_name db 0 = Except.ok "None" ∧
    (n ≠ 0 → db.empires.find? (fun x => x.id == n) = some e →
      DataStore.owner_name db n = Except.ok e.name) ∧
    (n ≠ 0 → db.empires.find? (fun x => x.id == n) = none →
      DataStore.owner_name db n =
        Except.error (DataError.sqlx SqlxError.rowNotFound)) ∧
    DataStore.get_systems resolvedDb =
      Except.ok [(rowToSystem unownedRow, "None"), (rowToSystem ownedRow, "Terran")] ∧
    DataStore.get_system_by_name danglingDb "A" =
      Except.error (DataError.sqlx SqlxError.rowNotFound) := by
  refine ⟨?_, ?_, ?_, rfl, rfl⟩
  · simp [DataStore.owner_name]
  · intro hn hf
    simp [DataStore.owner_name, DataStore.get_empire_name, hn, hf]
  · intro hn hf
    simp [DataStore.owner_name, DataStore.get_empire_name, hn, hf]

/-- Witness for `c2_owner_resolution` at the concrete stores. -/
theorem c2_owner_resolution_witness :
    DataStore.owner_name resolvedDb 1 = Except.ok "Terran" ∧
    DataStore.owner_name danglingDb 5 =
      Except.error (DataError.sqlx SqlxError.rowNotFound) :=
  ⟨(c2_owner_resolution resolvedDb 1 terran).2.1 (by decide) rfl,
   (c2_owner_resolution danglingDb 5 terran).2.2.1 (by decide) rfl⟩

/-- C3 counterexample: importing one well-formed record followed by one
record missing the IND field returns an error AND leaves the well-formed
row persisted — exactly the mixed outcome the claim says cannot occur. -/
theorem c3_counterexample :
    (System.importRecords 7 [goodRow, rowMissingInd] []).1 =
      Except.error "UnequalLengths" ∧
    (System.importRecords 7 [goodRow, rowMissingInd] []).2.length = 1 :=
  ⟨rfl, rfl⟩

/-- C3 amended: the import policy is mixed, not uniform.  A record with
the wrong field count aborts the import with an unequal-lengths reader
error while earlier rows stay persisted; a record with the right field
count whose numeric field fails to parse is silently skipped and the whole
run succeeds. -/
theorem c3_import_policy :
    System.importRecords 7 [goodRow, rowMissingInd] [] =
      (Except.error "UnequalLengths", [senorRow]) ∧
    System.importRecords 7 [goodRow, rowBadInd] [] =
      (Except.ok (), [senorRow]) :=
  ⟨rfl, rfl⟩

/-- C4 counterexample: provisioning does not create systems before fleets —
`DataStore::create_tables` creates fleets (position 2) before systems
(position 7) — and `Campaign::create_tables` creates no ground-units table
at all. -/
theorem c4_counterexample :
    ¬ ((tablesCreated DataStore.create_tables).indexOf TableName.systems <
        (tablesCreated DataStore.create_tables).indexOf TableName.fleets) ∧
    TableName.ground_units ∉ tablesCreated Campaign.create_tables := by
  decide

/-- C4 amended: `DataStore::create_tables` creates control, empires,
fleets, ground types, ground units, ship types, ships, systems in that
order, and `Campaign::create_tables` creates control, empires, fleets,
systems, ground types, ship types, ships (no ground-units table); both
paths seed the ground-type catalog with exactly the six fixed rows.  Every
foreign reference other than a reference to systems points at an earlier
table (in particular ground types precede ground units), but fleets and
ground units are created before systems, which they reference. -/
theorem c4_provisioning :
    tablesCreated DataStore.create_tables =
      [TableName.control, TableName.empires, TableName.fleets,
       TableName.ground_types, TableName.ground_units, TableName.ship_types,
       TableName.ships, TableName.systems] ∧
    tablesCreated Campaign.create_tables =
      [TableName.control, TableName.empires, TableName.fleets,
       TableName.systems, TableName.ground_types, TableName.ship_types,
       TableName.ships] ∧
    Step.seedGroundTypes ground_types_seed ∈ DataStore.create_tables ∧
    Step.seedGroundTypes ground_types_seed ∈ Campaign.create_tables ∧
    ground_types_seed.map (fun r => r.name) =
      ["Militia", "Light Infantry", "Mobile Infantry", "Light Armor",
       "Mech Infantry", "Marines"] ∧
    ground_types_seed.length = 6 ∧
    depOrderedExceptSystems (tablesCreated DataStore.create_tables)
      dataTableRefs = true ∧
    depOrderedExceptSystems (tablesCreated Campaign.create_tables)
      campaignTableRefs = true ∧
    (tablesCreated DataStore.create_tables).indexOf TableName.ground_types <
      (tablesCreated DataStore.create_tables).indexOf TableName.ground_units ∧
    (tablesCreated DataStore.create_tables).indexOf TableName.fleets <
      (tablesCreated DataStore.create_tables).indexOf TableName.systems := by
  decide

/-- C5: campaign creation is exclusive on the derived storage identifier —
a second create of any name whose derived database path coincides with an
already-created one fails with the conflict error, and "Al pha" and
"Al_pha" derive the same path. -/
theorem c5_creation_exclusive (name name2 : List Char) (fs : Fs)
    (c : CampaignState) (fs2 : Fs)
    (hpath : database_path name = database_path name2)
    (h : Campaign.new name fs = Except.ok (c, fs2)) :
    Campaign.new name2 fs2 = Except.error "Campaign already exists" ∧
    database_path alSpace = database_path alUnderscore := by
  refine ⟨?_, rfl⟩
  obtain ⟨-, hfs⟩ := campaign_new_ok name fs c fs2 h
  have hmem : database_path name2 ∈ fs2.files := by
    rw [hfs, ← hpath]
    exact List.mem_cons_self _ _
  simp [Campaign.new, hmem]

/-- Witness for `c5_creation_exclusive`: creating "Al pha" in an empty
directory succeeds, after which creating "Al_pha" conflicts. -/
theorem c5_creation_exclusive_witness :
    Campaign.new alUnderscore { files := [database_path alSpace] } =
      Except.error "Campaign already exists" ∧
    database_path alSpace = database_path alUnderscore :=
  c5_creation_exclusive alSpace alUnderscore { files := [] }
    { name := alSpace, turn := 0 } { files := [database_path alSpace] }
    rfl rfl

/-- C6: importing the two-line Senor Prime CSV into an empty store
succeeds and `select_all` afterwards returns exactly one System with the
stated field values (dev and fails 0). -/
theorem c6_import_senor :
    (System.import_csv senorCsv []).1 = Except.ok () ∧
    select_all (System.import_csv senorCsv []).2 =
      [{ id := 1, name := "Senor Prime", ptype := "HW", raw := 5, cap := 12,
         pop := 10, mor := 8, ind := 10, dev := 0, fails := 0, owner := 0 }] :=
  ⟨rfl, rfl⟩

/-- C7 counterexample: when reading the storage directory fails, `list`
returns the propagated IO error, not an empty list of names. -/
theorem c7_counterexample :
    Campaign.list ReadDir.err = Except.error () := rfl

/-- C7 amended: `list` propagates a failure to read the storage directory
itself as an error; only per-entry enumeration failures are swallowed,
yielding a partial list of the remaining names. -/
theorem c7_list_error_policy :
    Campaign.list ReadDir.err = Except.error () ∧
    Campaign.list (ReadDir.ok
        [Except.error (), Except.ok (database_path alSpace)]) =
      Except.ok [alSpace] :=
  ⟨rfl, rfl⟩

/-- C8: a campaign name containing spaces and no underscores survives
create followed by list — the created database file is enumerated, passes
the `.db` filter, and its stem maps back to the original name. -/
theorem c8_create_list_roundtrip (name : List Char) (fs : Fs)
    (c : CampaignState) (fs2 : Fs)
    (hsp : ' ' ∈ name) (hus : '_' ∉ name)
    (h : Campaign.new name fs = Except.ok (c, fs2)) :
    ∃ ns, Campaign.list (ReadDir.ok (fs2.files.map Except.ok)) =
      Except.ok ns ∧ name ∈ ns := by
  have hne : name ≠ [] := by
    intro hnil
    rw [hnil] at hsp
    exact absurd hsp (List.not_mem_nil _)
  obtain ⟨-, hfs⟩ := campaign_new_ok name fs c fs2 h
  rw [hfs]
  refine ⟨_, rfl, ?_⟩
  have hfilter : entryHasDbExt (Except.ok (database_path name)) = true := by
    simp [entryHasDbExt, fileExt_database_path name hne]
  have hname : entryToName (Except.ok (database_path name)) = name := by
    simp [entryToName, fileStem_database_path name hne,
      space_underscore_roundtrip name hus]
  simp only [List.map_cons, List.filter_cons, hfilter, if_true, ite_true,
    if_pos, hname]
  exact List.mem_cons_self _ _

/-- Witness for `c8_create_list_roundtrip`: creating "Al pha" in an empty
directory and listing afterwards yields a list containing "Al pha". -/
theorem c8_create_list_roundtrip_witness :
    ∃ ns, Campaign.list (ReadDir.ok
        ((Fs.mk [database_path alSpace]).files.map Except.ok)) =
      Except.ok ns ∧ alSpace ∈ ns :=
  c8_create_list_roundtrip alSpace { files := [] }
    { name := alSpace, turn := 0 } { files := [database_path alSpace] }
    (by decide) (by decide) rfl

/-- C9: inserting a freshly constructed System appends one row whose dev
and fails columns are 0 by the schema defaults while the owner column,
absent from the insert column list and without a schema default, is SQL
NULL rather than the integer 0; the seven bound columns carry the entity
values. -/
theorem c9_insert_defaults (sys : System) (t : List SystemRow) :
    ∃ r, insert_system sys t = t ++ [r] ∧ r.dev = 0 ∧ r.fails = 0 ∧
      r.owner = none ∧ r.name = sys.name ∧ r.ptype = sys.ptype ∧
      r.raw = sys.raw ∧ r.cap = sys.cap ∧ r.pop = sys.pop ∧
      r.mor = sys.mor ∧ r.ind = sys.ind :=
  ⟨_, rfl, rfl, rfl, rfl, rfl, rfl, rfl, rfl, rfl, rfl, rfl⟩

/-- C10: CSV row parsing accepts negative numeric fields — a record whose
RAW field is -5 parses successfully and import persists the System with
raw = -5. -/
theorem c10_negative_fields :
    System.from_csv negRow = Except.ok (System.new "Neg" "T" (-5) 1 2 3 4) ∧
    (System.importRecords 7 [negRow] []).1 = Except.ok () ∧
    (System.importRecords 7 [negRow] []).2 =
      [{ id := 1, name := "Neg", ptype := "T", raw := -5, cap := 1, pop := 2,
         mor := 3, ind := 4, dev := 0, fails := 0, owner := none }] :=
  ⟨rfl, rfl, rfl⟩

end VbamCma
